import Mathlib

/-!
Verification development for the London air-quality harvester and ingestion
gateway.  The definitions below are shallow embeddings of the Python sources:

* `ApiDb`       — src/API_DB/api_db.py (gateway: model `RegistroAire`, its
                  declared field validators, `/insertar-datos` route).
* `Historico`   — src/HistoricalData/historical_manager.py (paginated walker
                  over the OpenAQ measurements endpoint).
* `Llamadas`    — the outbound HTTP call sites of the harvesters with their
                  timeouts (api_manager.py, historical_loader.py,
                  historical_manager.py).
* `Contadores`  — run-level counters of the harvesters (api_manager.py
                  `sent_count`, historical_manager fire-and-forget send).
* `DbApi`       — src/DB_API/DbApi.py (`/ingest` raw store endpoint).
* `Cargas`      — the payload dictionaries built by the harvesters.

Floats of the source are modelled as `ℚ`; machine side effects (logging,
sleeping) appear as explicit events or constants.
-/

namespace ApiDb

/-- Embedding of Python `datetime.strptime(v, '%Y-%m-%d %H:%M:%S')` as used by
the `validar_formato_fecha` field validator (api_db.py lines 59-66).
CPython compiles the format to the anchored regex
`\d\d\d\d-(1[0-2]|0[1-9]|[1-9])-(3[01]|[12]\d|0[1-9]|[1-9])\s+(2[0-3]|[0-1]\d|\d):([0-5]\d|\d):(6[0-1]|[0-5]\d|\d)`,
requires the whole string to be consumed, and then builds a `datetime`,
which additionally checks year ≥ 1, the calendar day range of the month
(with leap years) and second ≤ 59.  ASCII digits and whitespace model the
regex classes. -/
def esDigito (c : Char) : Bool := '0' ≤ c && c ≤ '9'

def valorDigito (c : Char) : Nat := c.toNat - '0'.toNat

/-- Maximal run of leading digits of a character list, with the rest. -/
def tomarDigitos : List Char → List Nat × List Char
  | [] => ([], [])
  | c :: cs =>
    if esDigito c then
      let r := tomarDigitos cs
      (valorDigito c :: r.1, r.2)
    else ([], c :: cs)

def valorDe (ds : List Nat) : Nat := ds.foldl (fun a d => a * 10 + d) 0

def esEspacio (c : Char) : Bool :=
  c == ' ' || c == '\t' || c == '\n' || c == '\r' || c == '\x0b' || c == '\x0c'

/-- Count of leading whitespace characters, with the rest. -/
def tomarEspacios : List Char → Nat × List Char
  | [] => (0, [])
  | c :: cs =>
    if esEspacio c then
      let r := tomarEspacios cs
      (r.1 + 1, r.2)
    else (0, c :: cs)

def esBisiesto (y : Nat) : Bool := (y % 4 == 0 && y % 100 != 0) || y % 400 == 0

def diasEnMes (y m : Nat) : Nat :=
  if m == 2 then (if esBisiesto y then 29 else 28)
  else if m == 4 || m == 6 || m == 9 || m == 11 then 30
  else 31

/-- Field validator 4 of `RegistroAire` (api_db.py lines 58-66): `True` iff
`datetime.strptime(v, '%Y-%m-%d %H:%M:%S')` succeeds. -/
def validar_formato_fecha (s : String) : Bool :=
  let cs := s.data
  let y := tomarDigitos cs
  if y.1.length != 4 then false else
  match y.2 with
  | '-' :: r2 =>
    let mo := tomarDigitos r2
    if mo.1.length == 0 || mo.1.length > 2 then false else
    match mo.2 with
    | '-' :: r4 =>
      let d := tomarDigitos r4
      if d.1.length == 0 || d.1.length > 2 then false else
      let sp := tomarEspacios d.2
      if sp.1 == 0 then false else
      let h := tomarDigitos sp.2
      if h.1.length == 0 || h.1.length > 2 then false else
      match h.2 with
      | ':' :: r8 =>
        let mi := tomarDigitos r8
        if mi.1.length == 0 || mi.1.length > 2 then false else
        match mi.2 with
        | ':' :: r10 =>
          let se := tomarDigitos r10
          if se.1.length == 0 || se.1.length > 2 then false else
          if !se.2.isEmpty then false else
          let yv := valorDe y.1
          let mov := valorDe mo.1
          let dv := valorDe d.1
          let hv := valorDe h.1
          let miv := valorDe mi.1
          let sev := valorDe se.1
          1 ≤ yv && 1 ≤ mov && mov ≤ 12 && 1 ≤ dv && dv ≤ diasEnMes yv mov &&
            hv ≤ 23 && miv ≤ 59 && sev ≤ 59
        | _ => false
      | _ => false
    | _ => false
  | _ => false

/-- Field validator 1 (api_db.py lines 33-39): latitude inside London. -/
def validar_latitud_londres (v : ℚ) : Bool := 51.28 ≤ v && v ≤ 51.69

/-- Field validator 2 (api_db.py lines 41-47): longitude inside London. -/
def validar_longitud_londres (v : ℚ) : Bool := -0.51 ≤ v && v ≤ 0.33

/-- Field validator 3 (api_db.py lines 49-56): unit in the closed vocabulary. -/
def validar_unidades (v : String) : Bool := v == "aqi" || v == "µg/m³"

/-- The `RegistroAire` SQLModel table (api_db.py lines 15-31); `lat`, `lon`
and `value` are Python floats, modelled as `ℚ`. -/
structure RegistroAire where
  source : String
  station_uid : Int
  station_name : String
  lat : ℚ
  lon : ℚ
  sensor_date : String
  scraped_at : String
  parameter : String
  value : ℚ
  unit : String
  deriving DecidableEq

/-- Fields the declared validators of `RegistroAire` would flag, in model
field-definition order (`lat`, `lon`, `sensor_date`, `scraped_at`, `unit`).
These validators are dead code on the `/insertar-datos` route: for a
`table=True` SQLModel, FastAPI's request-body parsing goes through
SQLModel's custom `__init__` (`sqlmodel_table_construct`), which constructs
the instance without running pydantic validation — so the route never
produces a validation error from them. -/
def erroresValidacion (d : RegistroAire) : List String :=
  (if validar_latitud_londres d.lat then [] else ["lat"]) ++
  (if validar_longitud_londres d.lon then [] else ["lon"]) ++
  (if validar_formato_fecha d.sensor_date then [] else ["sensor_date"]) ++
  (if validar_formato_fecha d.scraped_at then [] else ["scraped_at"]) ++
  (if validar_unidades d.unit then [] else ["unit"])

/-- Conjunction of the four domain invariants the declared validators
(api_db.py lines 33-66) express: geographic envelope, timestamp formats and
unit vocabulary.  Not enforced anywhere on the route (see
`erroresValidacion`). -/
def cumpleInvariantes (d : RegistroAire) : Bool :=
  validar_latitud_londres d.lat && validar_longitud_londres d.lon &&
    validar_formato_fecha d.sensor_date && validar_formato_fecha d.scraped_at &&
    validar_unidades d.unit

/-- The `Usuario` table (api_db.py lines 69-71). -/
structure Usuario where
  username : String
  api_key : String
  deriving DecidableEq

/-- The gateway's persistent state: the two SQL tables. -/
structure EstadoGateway where
  usuarios : List Usuario
  registros : List RegistroAire
  deriving DecidableEq

/-- Outcome of one POST to `/insertar-datos` with a well-formed JSON body:
`aceptado` = HTTP 200 `{"estado": "OK"}`;
`noAutorizado` = HTTP 401 from `validar_api_key` (api_db.py lines 80-84);
`duplicado` = `IntegrityError` raised by `session.commit()` under the
`UniqueConstraint("station_uid", "sensor_date", "parameter")`
(api_db.py lines 29-31), surfacing as HTTP 500 and leaving no row.
No validation outcome exists: the field validators never run for the
`table=True` body. -/
inductive ResultadoIngesta where
  | aceptado
  | noAutorizado
  | duplicado
  deriving DecidableEq

/-- Same `(station_uid, sensor_date, parameter)` triple. -/
def mismoTriple (a b : RegistroAire) : Bool :=
  a.station_uid == b.station_uid && a.sensor_date == b.sensor_date &&
    a.parameter == b.parameter

/-- The `/insertar-datos` route (api_db.py lines 103-111) together with the
framework steps it depends on.  FastAPI resolves the `validar_api_key`
dependency first, so an unknown key returns 401 with no write; the body is
then constructed as a `table=True` SQLModel — without running any field
validator — and the handler's `session.add`/`session.commit` inserts it
under the unique constraint, an already-present triple raising
`IntegrityError`.  The missing-header and unparseable-body cases are
rejected by FastAPI's request parsing before this point and are not
modelled. -/
def insertar (x_api_key : String) (dato : RegistroAire) (st : EstadoGateway) :
    ResultadoIngesta × EstadoGateway :=
  if st.usuarios.any (fun u => u.api_key == x_api_key) then
    if st.registros.any (fun r => mismoTriple r dato) then
      (.duplicado, st)
    else
      (.aceptado, ⟨st.usuarios, st.registros ++ [dato]⟩)
  else (.noAutorizado, st)

end ApiDb

namespace Historico

/-- Outcome of one `requests.get` on the measurements endpoint as the walker
in `fetch_and_load_history` (historical_manager.py lines 99-147) branches on
it: `ok results` = HTTP 200 with the parsed `results` list (items opaque),
`limitada` = HTTP 429 rate limit, `errorHttp` = any other non-200 status,
`excepcion` = a raised `requests` exception. -/
inductive RespuestaPagina where
  | ok (results : List Nat)
  | limitada
  | errorHttp
  | excepcion
  deriving DecidableEq

/-- The fixed rate-limit cooldown: `time.sleep(45)`
(historical_manager.py line 115). -/
def COOLDOWN_SEGUNDOS : Nat := 45

/-- Observable events of the measurement walker for one WorkUnit
(one sensor × one year): `consulta p` = one GET issued with `"page": p`;
`espera s` = `time.sleep(s)` after a 429; `emite p n` = the `n` records of
page `p` forwarded to the sink. -/
inductive EventoWalker where
  | consulta (page : Nat)
  | espera (segundos : Nat)
  | emite (page : Nat) (n : Nat)
  deriving DecidableEq

/-- The `while True` pagination loop of historical_manager.py lines 101-147,
driven by a provider stub mapping the attempt number (total GETs so far for
this WorkUnit) to its outcome, with fuel bounding the number of iterations:
* 429 → sleep 45 s and `continue` with `page` unchanged (lines 113-116);
* non-200 → `break` (line 117);
* 200 with empty `results` → `break` (lines 119-120);
* 200 with non-empty `results` → send each record, `page += 1` (lines
  122-143). -/
def pasosWalker (provider : Nat → RespuestaPagina) :
    Nat → Nat → Nat → List EventoWalker
  | 0, _, _ => []
  | fuel + 1, intento, page =>
    .consulta page ::
      match provider intento with
      | .limitada =>
          .espera COOLDOWN_SEGUNDOS :: pasosWalker provider fuel (intento + 1) page
      | .errorHttp => []
      | .excepcion => []
      | .ok [] => []
      | .ok (r :: rs) =>
          .emite page (r :: rs).length ::
            pasosWalker provider fuel (intento + 1) (page + 1)

/-- Pages emitted to the sink, in order. -/
def paginasEmitidas (tr : List EventoWalker) : List Nat :=
  tr.filterMap fun e =>
    match e with
    | .emite p _ => some p
    | _ => none

/-- Page numbers of the GETs issued, in order. -/
def paginasConsultadas (tr : List EventoWalker) : List Nat :=
  tr.filterMap fun e =>
    match e with
    | .consulta p => some p
    | _ => none

end Historico

namespace Llamadas

/-- One outbound `requests` call site of the harvesters: where it appears,
what it talks to, whether the target is an upstream third-party provider
(as opposed to the project's own ingest sink), and the `timeout=` argument
in milliseconds, `none` when the call passes no timeout. -/
structure LlamadaHttp where
  origen : String
  destino : String
  esUpstream : Bool
  timeoutMs : Option Nat
  deriving DecidableEq

/-- Every outbound HTTP call site of the three harvester modules. -/
def llamadasSalientes : List LlamadaHttp :=
  [ -- api_manager.py line 30: requests.get(MAP_URL).json()  (no timeout)
    ⟨"api_manager.run_ingestion_cycle", "waqi map bounds", true, none⟩,
    -- api_manager.py line 22: requests.get(feed, timeout=10)
    ⟨"api_manager.fetch_station_details", "waqi station feed", true, some 10000⟩,
    -- api_manager.py line 77: requests.post(GATEKEEPER_URL, json=payload, timeout=2)
    ⟨"api_manager.run_ingestion_cycle", "db_security ingest", false, some 2000⟩,
    -- historical_loader.py line 21: requests.get(url)  (no timeout)
    ⟨"historical_loader.get_historical_data", "waqi london feed", true, none⟩,
    -- historical_loader.py line 42: requests.post(GATEKEEPER_URL, json=data)  (no timeout)
    ⟨"historical_loader.get_historical_data", "db_api ingest", false, none⟩,
    -- historical_manager.py line 55: requests.get(locations_url, ..., timeout=20)
    ⟨"historical_manager.fetch_and_load_history", "openaq locations", true, some 20000⟩,
    -- historical_manager.py line 76: requests.get(sensors_url, ..., timeout=10)
    ⟨"historical_manager.fetch_and_load_history", "openaq sensors", true, some 10000⟩,
    -- historical_manager.py line 111: requests.get(meas_url, ..., timeout=10)
    ⟨"historical_manager.fetch_and_load_history", "openaq measurements", true, some 10000⟩,
    -- historical_manager.py line 138: requests.post(GATEKEEPER_URL, json=payload, timeout=0.2)
    ⟨"historical_manager.fetch_and_load_history", "db_security ingest", false, some 200⟩ ]

end Llamadas

namespace Contadores

/-- Outcome of one `requests.post` of a record to the sink:
`estado code` = a response with that HTTP status, `fallo` = a raised
exception. -/
inductive ResultadoEnvio where
  | estado (code : Nat)
  | fallo
  deriving DecidableEq

/-- api_manager.py lines 76-82: the effect of one record submission on the
run's `sent_count` — incremented only when the response status is 200; a
non-200 response or an exception (which only prints) leaves it unchanged. -/
def actualizarSentCount (r : ResultadoEnvio) (sent_count : Nat) : Nat :=
  match r with
  | .estado code => if code == 200 then sent_count + 1 else sent_count
  | .fallo => sent_count

/-- The `sent_count` a realtime run reports after submitting records with the
given outcomes (api_manager.py lines 36-83). -/
def sentCountFinal (rs : List ResultadoEnvio) : Nat :=
  rs.foldl (fun c r => actualizarSentCount r c) 0

/-- historical_manager.py lines 137-140: each record is posted fire-and-forget
(`except: pass`); the run keeps no counter at all, so a submission has no
observable effect on any run-level state. -/
def efectoEnvioHistorico (_ : ResultadoEnvio) : Unit := ()

end Contadores

namespace DbApi

/-- A request body as the `/ingest` endpoint sees it: either
`request.json()` succeeds, yielding a payload (rendered by `json.dumps`,
kept opaque as a string), or it raises. -/
inductive CuerpoPeticion where
  | json (s : String)
  | noJson
  deriving DecidableEq

/-- The `london_raw_data` table (DbApi.py lines 32-38): rows hold the stored
`raw_data` text. -/
structure AlmacenCrudo where
  rows : List String
  deriving DecidableEq

/-- Response of `/ingest`: `saved` = HTTP 200 `{"status": "saved"}`;
`error500` = the `HTTPException(status_code=500, ...)` raised on any
exception. -/
inductive RespuestaIngest where
  | saved
  | error500
  deriving DecidableEq

/-- The `/ingest` endpoint `receive_data` (DbApi.py lines 46-70): no
credential check, no field validation, no duplicate detection — a parseable
body is stored verbatim as a new row; any exception (unparseable body, or a
storage failure modelled by `dbOk = false`) yields HTTP 500 and stores
nothing. -/
def receive_data (dbOk : Bool) (body : CuerpoPeticion)
    (st : AlmacenCrudo) : RespuestaIngest × AlmacenCrudo :=
  match body with
  | .noJson => (.error500, st)
  | .json s =>
    if dbOk then (.saved, ⟨st.rows ++ [s]⟩) else (.error500, st)

/-- The route path served by DbApi.py line 46. -/
def rutaIngest : String := "/ingest"

/-- api_manager.py line 15: the sink URL the realtime harvester posts to. -/
def GATEKEEPER_URL_api_manager : String := "http://db_security:8000/ingest"

/-- historical_manager.py line 10: the sink URL the historical harvester
posts to. -/
def GATEKEEPER_URL_historical : String := "http://db_security:8000/ingest"

end DbApi

namespace Cargas

/-- A JSON value as far as the payload dictionaries distinguish them: a
string, a number, an integer, or a nested object (opaque). -/
inductive ValorJson where
  | cadena (s : String)
  | numero (q : ℚ)
  | entero (n : Int)
  | objeto
  deriving DecidableEq

/-- The payload dictionary built per pollutant reading by
`run_ingestion_cycle` (api_manager.py lines 55-73): note the key `"date"`
(not `"sensor_date"`), no `"scraped_at"` key, and `"value"` built with
`str(val)`. -/
def payloadRealtime (idx : Int) (cityName : String) (lat lon : ℚ)
    (timeS : String) (pollutant : String) (val : ℚ) :
    List (String × ValorJson) :=
  [ ("source", .cadena "waqi_realtime"),
    ("station_uid", .entero idx),
    ("station_name", .cadena cityName),
    ("lat", .numero lat),
    ("lon", .numero lon),
    ("date", .cadena timeS),
    ("parameter", .cadena pollutant),
    ("value", .cadena (toString val)),
    ("unit", .cadena "aqi"),
    ("full_json", .objeto) ]

/-- The payload dictionary built per measurement by
`fetch_and_load_history` (historical_manager.py lines 124-136): same shape —
key `"date"`, no `"scraped_at"`, `"value"` as `str(...)`. -/
def payloadHistorico (sensor_id : Int) (loc_name : String) (lat lon : ℚ)
    (utc : String) (name : String) (val : ℚ) (unit : String) :
    List (String × ValorJson) :=
  [ ("source", .cadena "openaq_v3_history"),
    ("station_uid", .entero sensor_id),
    ("station_name", .cadena loc_name),
    ("lat", .numero lat),
    ("lon", .numero lon),
    ("date", .cadena utc),
    ("parameter", .cadena name),
    ("value", .cadena (toString val)),
    ("unit", .cadena unit),
    ("full_json", .objeto) ]

/-- Keys of a payload dictionary. -/
def claves (p : List (String × ValorJson)) : List String := p.map Prod.fst

/-- The fields the `RegistroAire` pydantic model requires (api_db.py lines
15-26; `id` is optional, every other field has no default). -/
def camposRequeridosRegistro : List String :=
  [ "source", "station_uid", "station_name", "lat", "lon",
    "sensor_date", "scraped_at", "parameter", "value", "unit" ]

/-- Whether a payload supplies every required field of `RegistroAire`;
pydantic rejects the payload with a missing-field error otherwise. -/
def tieneCamposRequeridos (p : List (String × ValorJson)) : Bool :=
  camposRequeridosRegistro.all fun k => (claves p).any fun k2 => k2 == k

end Cargas

namespace Ejemplos

/-- A registered user for concrete scenarios. -/
def usuarioDemo : ApiDb.Usuario := ⟨"alice", "clave-demo-1"⟩

/-- Gateway state holding one registered user and an empty store. -/
def estadoDemo : ApiDb.EstadoGateway := ⟨[usuarioDemo], []⟩

/-- A record satisfying every gateway invariant. -/
def registroDemo : ApiDb.RegistroAire :=
  ⟨"waqi_realtime", 100, "London Bridge", 51.5, -0.12,
   "2024-01-01 00:00:00", "2024-01-02 12:30:45", "pm25", 12.5, "aqi"⟩

/-- A record whose unit ("ppm") and `sensor_date` ("07/05/2024 10:00") both
fail validation while every other field is valid. -/
def registroInvalido : ApiDb.RegistroAire :=
  { registroDemo with unit := "ppm", sensor_date := "07/05/2024 10:00" }

/-- A record valid except for `lat = 52.0`, outside [51.28, 51.69]. -/
def registroLatFuera : ApiDb.RegistroAire := { registroDemo with lat := 52.0 }

/-- Stub provider for throttle recovery: page 1 succeeds on attempt 0, page 2
is rate-limited on attempts 1 and 2 and succeeds on attempt 3, page 3
succeeds on attempt 4, and attempt 5 finds no data. -/
def stubReintento : Nat → Historico.RespuestaPagina
  | 0 => .ok [7]
  | 1 => .limitada
  | 2 => .limitada
  | 3 => .ok [8]
  | 4 => .ok [9]
  | _ => .ok []

/-- Stub provider for exhaustion: three non-empty pages, then an empty one. -/
def stubAgotamiento : Nat → Historico.RespuestaPagina
  | 0 => .ok [11]
  | 1 => .ok [12]
  | 2 => .ok [13]
  | _ => .ok []

end Ejemplos

namespace ApiDb

/-- Claim C1: submitting the same valid `CanonicalMeasurement` to the
gateway's validated insert twice yields accepted for the first submission
and the duplicate rejection for the second (the unique constraint on
`(station_uid, sensor_date, parameter)` fires); the store's row count
increases by exactly one and the second record never overwrites the first. -/
theorem gateway_insercion_idempotente (st : EstadoGateway) (key : String)
    (dato : RegistroAire)
    (hk : st.usuarios.any (fun u => u.api_key == key) = true)
    (_hv : erroresValidacion dato = [])
    (hd : st.registros.any (fun r => mismoTriple r dato) = false) :
    (insertar key dato st).1 = .aceptado ∧
    (insertar key dato (insertar key dato st).2).1 = .duplicado ∧
    (insertar key dato (insertar key dato st).2).2 = (insertar key dato st).2 ∧
    (insertar key dato st).2.registros.length = st.registros.length + 1 := by
  have h1 : insertar key dato st =
      (.aceptado, ⟨st.usuarios, st.registros ++ [dato]⟩) := by
    simp [insertar, hk, hd]
  have hd2 : (st.registros ++ [dato]).any (fun r => mismoTriple r dato) = true := by
    simp [List.any_append, mismoTriple]
  have h2 : insertar key dato ⟨st.usuarios, st.registros ++ [dato]⟩ =
      (.duplicado, ⟨st.usuarios, st.registros ++ [dato]⟩) := by
    simp [insertar, hk, hd2]
  refine ⟨?_, ?_, ?_, ?_⟩ <;> simp [h1, h2]

/-- Witness for C1: the concrete valid record is accepted once and rejected
as a duplicate on resubmission, growing the store by one row. -/
theorem gateway_insercion_idempotente_witness :
    (Ejemplos.estadoDemo.usuarios.any
        (fun u => u.api_key == "clave-demo-1") = true) ∧
    erroresValidacion Ejemplos.registroDemo = [] ∧
    (Ejemplos.estadoDemo.registros.any
        (fun r => mismoTriple r Ejemplos.registroDemo) = false) ∧
    ((insertar "clave-demo-1" Ejemplos.registroDemo Ejemplos.estadoDemo).1 = .aceptado ∧
     (insertar "clave-demo-1" Ejemplos.registroDemo
        (insertar "clave-demo-1" Ejemplos.registroDemo Ejemplos.estadoDemo).2).1 = .duplicado ∧
     (insertar "clave-demo-1" Ejemplos.registroDemo
        (insertar "clave-demo-1" Ejemplos.registroDemo Ejemplos.estadoDemo).2).2 =
       (insertar "clave-demo-1" Ejemplos.registroDemo Ejemplos.estadoDemo).2 ∧
     (insertar "clave-demo-1" Ejemplos.registroDemo Ejemplos.estadoDemo).2.registros.length =
       Ejemplos.estadoDemo.registros.length + 1) :=
  ⟨by decide, by with_unfolding_all decide, by decide,
    gateway_insercion_idempotente Ejemplos.estadoDemo "clave-demo-1"
      Ejemplos.registroDemo (by decide) (by with_unfolding_all decide) (by decide)⟩

/-- Claim C2 concerns a bug: the four field validators declared on
`RegistroAire` (api_db.py lines 33-66, each introduced by a comment stating
the invariant it is meant to enforce) are dead code on the
`/insertar-datos` route — a `table=True` SQLModel body is constructed
without validation — so the record with `lat = 52.0`, which the declared
latitude validator flags, is nevertheless accepted with HTTP 200 and
inserted into the store. -/
theorem gateway_validadores_muertos :
    validar_latitud_londres Ejemplos.registroLatFuera.lat = false ∧
    erroresValidacion Ejemplos.registroLatFuera = ["lat"] ∧
    cumpleInvariantes Ejemplos.registroLatFuera = false ∧
    (insertar "clave-demo-1" Ejemplos.registroLatFuera Ejemplos.estadoDemo).1 =
      .aceptado ∧
    (insertar "clave-demo-1" Ejemplos.registroLatFuera Ejemplos.estadoDemo).2.registros =
      [Ejemplos.registroLatFuera] := by
  with_unfolding_all decide

/-- Counterexample to claim C3: the record whose unit ("ppm") and
`sensor_date` ("07/05/2024 10:00") both violate the declared invariants is
not rejected with any offending field named — with a valid credential the
route accepts it and inserts it, because the field validators never run for
the `table=True` request body. -/
theorem gateway_sin_validacion_contraejemplo :
    validar_unidades Ejemplos.registroInvalido.unit = false ∧
    validar_formato_fecha Ejemplos.registroInvalido.sensor_date = false ∧
    insertar "clave-demo-1" Ejemplos.registroInvalido Ejemplos.estadoDemo =
      (.aceptado, ⟨[Ejemplos.usuarioDemo], [Ejemplos.registroInvalido]⟩) := by
  with_unfolding_all decide

/-- Claim C3 as amended: authentication is performed first — an unknown
credential yields the unauthorized rejection with no further processing and
no write, whatever the record holds — and after authentication no
CanonicalMeasurement invariant is checked at all: the record, valid or not,
goes straight to the duplicate-checked insert. -/
theorem gateway_autenticacion_primero (key : String) (dato : RegistroAire)
    (st : EstadoGateway) :
    (st.usuarios.any (fun u => u.api_key == key) = false →
      insertar key dato st = (.noAutorizado, st)) ∧
    (st.usuarios.any (fun u => u.api_key == key) = true →
      st.registros.any (fun r => mismoTriple r dato) = false →
      insertar key dato st = (.aceptado, ⟨st.usuarios, st.registros ++ [dato]⟩)) := by
  constructor
  · intro h; simp [insertar, h]
  · intro h1 h2; simp [insertar, h1, h2]

/-- Witness for the amended C3: the unknown key is turned away with the
state unchanged, and with the valid key the invariant-violating record is
accepted and appended — no validation step intervenes. -/
theorem gateway_autenticacion_primero_witness :
    (Ejemplos.estadoDemo.usuarios.any
        (fun u => u.api_key == "clave-desconocida") = false) ∧
    insertar "clave-desconocida" Ejemplos.registroInvalido Ejemplos.estadoDemo =
      (.noAutorizado, Ejemplos.estadoDemo) ∧
    (Ejemplos.estadoDemo.usuarios.any
        (fun u => u.api_key == "clave-demo-1") = true) ∧
    (Ejemplos.estadoDemo.registros.any
        (fun r => mismoTriple r Ejemplos.registroInvalido) = false) ∧
    insertar "clave-demo-1" Ejemplos.registroInvalido Ejemplos.estadoDemo =
      (.aceptado, ⟨Ejemplos.estadoDemo.usuarios,
        Ejemplos.estadoDemo.registros ++ [Ejemplos.registroInvalido]⟩) :=
  ⟨by decide,
    (gateway_autenticacion_primero "clave-desconocida" Ejemplos.registroInvalido
        Ejemplos.estadoDemo).1 (by decide),
    by decide, by decide,
    (gateway_autenticacion_primero "clave-demo-1" Ejemplos.registroInvalido
        Ejemplos.estadoDemo).2 (by decide) (by decide)⟩

end ApiDb


namespace Historico

/-- Pages are emitted consecutively from the current page number: whatever
the provider answers, the walker's output is a gapless, duplicate-free run
`page, page+1, ...`. -/
theorem paginasEmitidas_range (provider : Nat → RespuestaPagina) :
    ∀ fuel intento page, ∃ k,
      paginasEmitidas (pasosWalker provider fuel intento page) = List.range' page k := by
  intro fuel
  induction fuel with
  | zero => intro intento page; exact ⟨0, rfl⟩
  | succ n ih =>
    intro intento page
    cases hp : provider intento with
    | limitada =>
      obtain ⟨k, hk⟩ := ih (intento + 1) page
      refine ⟨k, ?_⟩
      simpa [pasosWalker, hp, paginasEmitidas] using hk
    | errorHttp => exact ⟨0, by simp [pasosWalker, hp, paginasEmitidas]⟩
    | excepcion => exact ⟨0, by simp [pasosWalker, hp, paginasEmitidas]⟩
    | ok l =>
      cases l with
      | nil => exact ⟨0, by simp [pasosWalker, hp, paginasEmitidas]⟩
      | cons a as =>
        obtain ⟨k, hk⟩ := ih (intento + 1) (page + 1)
        refine ⟨k + 1, ?_⟩
        simp [pasosWalker, hp, paginasEmitidas, List.range'_succ] at hk ⊢
        exact hk

/-- Claim C4: when a page fetch is rate-limited, the walker sleeps the fixed
45-second cooldown and re-fetches the same page number — the page counter is
unchanged across the retry — and the emitted page sequence of a WorkUnit is
a strictly increasing gapless run, the counter advancing by exactly one only
after a successful non-empty page. -/
theorem walker_reintenta_misma_pagina (provider : Nat → RespuestaPagina)
    (fuel intento page : Nat) (h : provider intento = .limitada) :
    pasosWalker provider (fuel + 1) intento page =
      .consulta page :: .espera COOLDOWN_SEGUNDOS ::
        pasosWalker provider fuel (intento + 1) page ∧
    ∃ k, paginasEmitidas (pasosWalker provider (fuel + 1) intento page) =
      List.range' page k :=
  ⟨by simp [pasosWalker, h], paginasEmitidas_range provider (fuel + 1) intento page⟩

/-- Witness for C4: with the stub that throttles page 2 twice, the retry
re-fetches page 2 after the cooldown and the emitted pages stay gapless. -/
theorem walker_reintenta_misma_pagina_witness :
    Ejemplos.stubReintento 1 = .limitada ∧
    (pasosWalker Ejemplos.stubReintento 19 1 2 =
      .consulta 2 :: .espera COOLDOWN_SEGUNDOS ::
        pasosWalker Ejemplos.stubReintento 18 2 2 ∧
    ∃ k, paginasEmitidas (pasosWalker Ejemplos.stubReintento 19 1 2) =
      List.range' 2 k) :=
  ⟨rfl, walker_reintenta_misma_pagina Ejemplos.stubReintento 18 1 2 rfl⟩

/-- Counterexample to claim C5: with a provider holding 3 non-empty pages,
the walker does issue a 4th fetch — the GET of page 4, whose empty result is
what stops it — so the run consists of four fetch attempts, not three; only a
5th fetch is never issued. -/
theorem walker_cuarta_consulta_contraejemplo :
    paginasEmitidas (pasosWalker Ejemplos.stubAgotamiento 10 0 1) = [1, 2, 3] ∧
    paginasConsultadas (pasosWalker Ejemplos.stubAgotamiento 10 0 1) = [1, 2, 3, 4] ∧
    (paginasConsultadas (pasosWalker Ejemplos.stubAgotamiento 10 0 1)).length = 4 := by
  decide

/-- Claim C5 as amended: when a page fetch succeeds with an empty result set
the walker terminates the WorkUnit and issues no further fetches for it;
given a provider with 3 non-empty pages and an empty 4th, it emits exactly
pages 1, 2, 3 and stops after the 4th fetch (the empty one), with no 5th
fetch attempt, for any remaining fuel. -/
theorem walker_agotamiento_paginacion (provider : Nat → RespuestaPagina)
    (fuel : Nat) (l0 l1 l2 : List Nat)
    (h0 : provider 0 = .ok l0) (n0 : l0 ≠ [])
    (h1 : provider 1 = .ok l1) (n1 : l1 ≠ [])
    (h2 : provider 2 = .ok l2) (n2 : l2 ≠ [])
    (h3 : provider 3 = .ok []) :
    paginasEmitidas (pasosWalker provider (fuel + 4) 0 1) = [1, 2, 3] ∧
    paginasConsultadas (pasosWalker provider (fuel + 4) 0 1) = [1, 2, 3, 4] := by
  cases l0 with
  | nil => exact absurd rfl n0
  | cons a0 t0 =>
    cases l1 with
    | nil => exact absurd rfl n1
    | cons a1 t1 =>
      cases l2 with
      | nil => exact absurd rfl n2
      | cons a2 t2 =>
        constructor <;>
          simp [pasosWalker, h0, h1, h2, h3, paginasEmitidas, paginasConsultadas]

/-- Witness for the amended C5: the exhaustion stub runs to the concrete
trace with pages 1-3 emitted and exactly four GETs. -/
theorem walker_agotamiento_paginacion_witness :
    Ejemplos.stubAgotamiento 0 = .ok [11] ∧ ([11] : List Nat) ≠ [] ∧
    Ejemplos.stubAgotamiento 1 = .ok [12] ∧ ([12] : List Nat) ≠ [] ∧
    Ejemplos.stubAgotamiento 2 = .ok [13] ∧ ([13] : List Nat) ≠ [] ∧
    Ejemplos.stubAgotamiento 3 = .ok [] ∧
    (paginasEmitidas (pasosWalker Ejemplos.stubAgotamiento 10 0 1) = [1, 2, 3] ∧
     paginasConsultadas (pasosWalker Ejemplos.stubAgotamiento 10 0 1) = [1, 2, 3, 4]) :=
  ⟨rfl, by decide, rfl, by decide, rfl, by decide, rfl,
    walker_agotamiento_paginacion Ejemplos.stubAgotamiento 6 [11] [12] [13]
      rfl (by decide) rfl (by decide) rfl (by decide) rfl⟩

end Historico

namespace Llamadas

/-- Counterexample to claim C7: two upstream calls are issued with no
timeout at all — the WAQI map-bounds fetch of `run_ingestion_cycle`
(api_manager.py line 30) and the WAQI feed fetch of `get_historical_data`
(historical_loader.py line 21). -/
theorem llamadas_sin_timeout_contraejemplo :
    (⟨"api_manager.run_ingestion_cycle", "waqi map bounds",
        true, none⟩ : LlamadaHttp) ∈ llamadasSalientes ∧
    (⟨"historical_loader.get_historical_data", "waqi london feed",
        true, none⟩ : LlamadaHttp) ∈ llamadasSalientes ∧
    (llamadasSalientes.filter
        (fun c => c.esUpstream && c.timeoutMs.isNone)).length = 2 := by
  decide

/-- Claim C7 as amended: every outbound upstream HTTP call of the harvesters
carries a fixed caller-supplied timeout except two — the WAQI map-bounds
fetch in api_manager's `run_ingestion_cycle` and the WAQI feed fetch in
historical_loader's `get_historical_data`, which are issued with no
timeout. -/
theorem llamadas_upstream_con_timeout (c : LlamadaHttp)
    (hc : c ∈ llamadasSalientes)
    (d1 : c.destino ≠ "waqi map bounds")
    (d2 : c.destino ≠ "waqi london feed") :
    c.esUpstream = true → c.timeoutMs.isSome = true := by
  fin_cases hc <;> simp_all

/-- Witness for the amended C7: the OpenAQ locations call carries its
20-second timeout. -/
theorem llamadas_upstream_con_timeout_witness :
    (⟨"historical_manager.fetch_and_load_history", "openaq locations",
        true, some 20000⟩ : LlamadaHttp) ∈ llamadasSalientes ∧
    ("openaq locations" : String) ≠ "waqi map bounds" ∧
    ("openaq locations" : String) ≠ "waqi london feed" ∧
    (LlamadaHttp.esUpstream ⟨"historical_manager.fetch_and_load_history",
        "openaq locations", true, some 20000⟩ = true →
      Option.isSome (LlamadaHttp.timeoutMs ⟨"historical_manager.fetch_and_load_history",
        "openaq locations", true, some 20000⟩) = true) :=
  ⟨by decide, by decide, by decide,
    llamadas_upstream_con_timeout
      ⟨"historical_manager.fetch_and_load_history", "openaq locations", true, some 20000⟩
      (by decide) (by decide) (by decide)⟩

end Llamadas

namespace Contadores

/-- Folding the realtime harvester's counter update over a run counts
exactly the submissions that returned HTTP 200. -/
theorem sentCount_foldl (rs : List ResultadoEnvio) :
    ∀ n, rs.foldl (fun c r => actualizarSentCount r c) n =
      n + (rs.filter (fun r => r == .estado 200)).length := by
  induction rs with
  | nil => intro n; simp
  | cons r rs ih =>
    intro n
    rw [List.foldl_cons, ih, List.filter_cons]
    cases r with
    | fallo => simp [actualizarSentCount]
    | estado code =>
      by_cases h : code = 200
      · subst h
        simp [actualizarSentCount]
        omega
      · simp [actualizarSentCount, h]

/-- Counterexample to claim C8: a record submission that fails — an
exception or a non-200 response — leaves the realtime run's only counter
(`sent_count`) unchanged and is counted nowhere, and a run over one success
and two failures ends reporting 1. -/
theorem fallo_no_contado_contraejemplo :
    actualizarSentCount .fallo 7 = 7 ∧
    actualizarSentCount (.estado 500) 7 = 7 ∧
    sentCountFinal [.estado 200, .fallo, .estado 500] = 1 := by
  decide

/-- Claim C8 as amended: a realtime run ends with `sent_count` counting
exactly the submissions whose response was HTTP 200; a failed submission
(exception or non-200) leaves the counter unchanged and no failure counter
exists, and the historical harvester's fire-and-forget send updates no
run-level state at all. -/
theorem contador_solo_aciertos (rs : List ResultadoEnvio)
    (r : ResultadoEnvio) (c : Nat) (h : r ≠ .estado 200) :
    sentCountFinal rs = (rs.filter (fun x => x == .estado 200)).length ∧
    actualizarSentCount r c = c ∧
    actualizarSentCount (.estado 200) c = c + 1 ∧
    efectoEnvioHistorico r = () := by
  refine ⟨by simpa using sentCount_foldl rs 0, ?_, by simp [actualizarSentCount], rfl⟩
  cases r with
  | fallo => rfl
  | estado code =>
    have hc : code ≠ 200 := fun hcc => h (by rw [hcc])
    simp [actualizarSentCount, hc]

/-- Witness for the amended C8: on a run of one success and two failures the
counter ends at the number of 200-responses, and the failing submission
leaves it unchanged. -/
theorem contador_solo_aciertos_witness :
    (ResultadoEnvio.fallo ≠ .estado 200) ∧
    (sentCountFinal [.estado 200, .fallo, .estado 500] =
      (([.estado 200, .fallo, .estado 500] : List ResultadoEnvio).filter
        (fun x => x == .estado 200)).length ∧
    actualizarSentCount .fallo 5 = 5 ∧
    actualizarSentCount (.estado 200) 5 = 5 + 1 ∧
    efectoEnvioHistorico .fallo = ()) :=
  ⟨by decide,
    contador_solo_aciertos [.estado 200, .fallo, .estado 500] .fallo 5 (by decide)⟩

end Contadores

namespace DbApi

/-- Claim C9: the `/ingest` endpoint both harvesters are configured to post
to performs no credential check, no field validation and no duplicate
detection — every JSON-parseable body is stored verbatim as a new row with
the response `saved`, submitting the same body twice stores two rows, and
only a storage-layer failure (or an unparseable body raising inside the
handler) produces the HTTP 500 error, leaving the store unchanged. -/
theorem ingest_almacena_todo (s : String) (st : AlmacenCrudo)
    (body : CuerpoPeticion) (dbOk : Bool) :
    receive_data true (.json s) st = (.saved, ⟨st.rows ++ [s]⟩) ∧
    (receive_data true (.json s) (receive_data true (.json s) st).2).2.rows =
      st.rows ++ [s, s] ∧
    receive_data false body st = (.error500, st) ∧
    receive_data dbOk .noJson st = (.error500, st) ∧
    GATEKEEPER_URL_api_manager = "http://db_security:8000" ++ rutaIngest ∧
    GATEKEEPER_URL_historical = "http://db_security:8000" ++ rutaIngest := by
  refine ⟨rfl, by simp [receive_data], ?_, ?_, rfl, rfl⟩
  · cases body <;> rfl
  · cases dbOk <;> rfl

end DbApi

namespace Cargas

/-- Claim C10: every payload either harvester constructs uses the key
`date` instead of `sensor_date`, omits `scraped_at`, and encodes `value` as
a string built with `str(...)`; consequently no harvester-produced payload,
whatever its inputs, supplies the required fields of the validated gateway
model `RegistroAire` — the normalizer output and the validated sink schema
are incompatible for all inputs. -/
theorem cargas_incompatibles_con_registro (idx sid : Int)
    (cn lname ts utc pol un : String) (la lo v : ℚ) :
    claves (payloadRealtime idx cn la lo ts pol v) =
      ["source", "station_uid", "station_name", "lat", "lon", "date",
       "parameter", "value", "unit", "full_json"] ∧
    claves (payloadHistorico sid lname la lo utc pol v un) =
      ["source", "station_uid", "station_name", "lat", "lon", "date",
       "parameter", "value", "unit", "full_json"] ∧
    (claves (payloadRealtime idx cn la lo ts pol v)).contains "date" = true ∧
    (claves (payloadRealtime idx cn la lo ts pol v)).contains "sensor_date" = false ∧
    (claves (payloadRealtime idx cn la lo ts pol v)).contains "scraped_at" = false ∧
    (claves (payloadHistorico sid lname la lo utc pol v un)).contains "sensor_date" = false ∧
    (claves (payloadHistorico sid lname la lo utc pol v un)).contains "scraped_at" = false ∧
    List.lookup "value" (payloadRealtime idx cn la lo ts pol v) =
      some (.cadena (toString v)) ∧
    List.lookup "value" (payloadHistorico sid lname la lo utc pol v un) =
      some (.cadena (toString v)) ∧
    tieneCamposRequeridos (payloadRealtime idx cn la lo ts pol v) = false ∧
    tieneCamposRequeridos (payloadHistorico sid lname la lo utc pol v un) = false :=
  ⟨rfl, rfl, rfl, rfl, rfl, rfl, rfl, rfl, rfl, rfl, rfl⟩

end Cargas
